import Mathlib

/-!
Shallow embedding of src/native/midi2-native.cc (harmoneasy MIDI 2.0 UMP
native module) and of the Packet Codec contract from the design document.

The napi entry points operate on the process-wide catalog `midiOutputs`
(a vector of `MIDIDevice`); here the catalog is passed and returned
explicitly.  Native OS results that the C++ obtains from WinMM / CoreMIDI /
ALSA calls (capability queries, open results, endpoint references) are
modelled as explicit inputs, so every function is a pure function of the
catalog and those inputs.  Machine integers are `Nat` with explicit masks
where overflow matters.
-/

/-- Error taxonomy of the design document's Packet Codec (used by the
spec-modelled codec functions below). -/
inductive MidiErr where
  | MalformedPacket
  | PayloadTooLarge
  | StreamOutOfOrder
  | IncompleteStream
  deriving DecidableEq, Repr

/-- A napi_throw_error call: error code string and message string, exactly as
they appear in the source. -/
structure NapiError where
  code : String
  msg : String
  deriving DecidableEq, Repr

/-- struct MIDIDevice: catalog entry.  `handle` is the opaque native handle
(`void*` in the source); `none` models nullptr. -/
structure MIDIDevice where
  index : Nat
  name : String
  isInput : Bool
  handle : Option Nat
  deriving DecidableEq, Repr

def MMSYSERR_NOERROR : Nat := 0

def MMSYSERR_ERROR : Nat := 1

/-- The four big-endian bytes `(packet >> 24) & 0xFF, (packet >> 16) & 0xFF,
(packet >> 8) & 0xFF, packet & 0xFF` that every platform branch derives from
one 32-bit UMP word. -/
def umpBytes (packet : Nat) : List Nat :=
  [(packet >>> 24) % 256, (packet >>> 16) % 256, (packet >>> 8) % 256, packet % 256]

/-- WindowsMIDIManager::sendData: only a 3-byte message is packed into a
uint32 and handed to midiOutShortMsg; any other length returns MMSYSERR_ERROR
without sending anything.  The result is the MMRESULT together with the short
message put on the wire, if any. -/
def WindowsMIDIManager.sendData (data : List Nat) : Nat × Option Nat :=
  match data with
  | [d0, d1, d2] => (MMSYSERR_NOERROR, some ((d0 ||| (d1 <<< 8) ||| (d2 <<< 16)) % 2 ^ 32))
  | _ => (MMSYSERR_ERROR, none)

/-- MacMIDIManager::sendUMP: builds a MIDIPacketList containing one native
4-byte packet per UMP word (big-endian, timestamp 0) and hands the list to
MIDISend; the result is that packet list. -/
def MacMIDIManager.sendUMP (packet : List Nat) : List (List Nat) :=
  packet.map umpBytes

/-- ALSAMIDIManager::sendUMP: serializes the words big-endian into one flat
buffer of 4*count bytes and writes it with a single snd_rawmidi_write call;
the result is that buffer. -/
def ALSAMIDIManager.sendUMP (packet : List Nat) : List Nat :=
  (packet.map umpBytes).flatten

/-- WindowsMIDIManager::enumerateOutputs: clears the catalog, then iterates
native devices 0..numDevices-1, pushing an entry with `index` equal to the
native loop counter whenever midiOutGetDevCaps succeeds; devices whose
capability query fails are skipped.  `caps` lists each native device's query
outcome in order (`some name` on success). -/
def WindowsMIDIManager.enumerateOutputs (caps : List (Option String)) : List MIDIDevice :=
  caps.enum.filterMap fun p =>
    p.2.map fun caName => { index := p.1, name := caName, isInput := false, handle := none }

/-- MacMIDIManager::enumerateOutputs: pushes one entry per OS destination with
`index` equal to the loop counter; a failed display-name lookup leaves the name
buffer unset (modelled as "") but the entry is still pushed.  `dests` lists
each destination's display-name lookup outcome and endpoint reference. -/
def MacMIDIManager.enumerateOutputs (dests : List (Option String × Nat)) : List MIDIDevice :=
  dests.enum.map fun p =>
    { index := p.1, name := (p.2.1).getD "", isInput := false, handle := some p.2.2 }

/-- ALSAMIDIManager::enumerateOutputs: iterates cards and raw-midi
sub-devices; each sub-device whose snd_rawmidi_open succeeds is pushed with
`index := midiOutputs.size()` at the moment of the push, so indices count
successes rather than probe positions.  `probes` lists each open attempt's
outcome in iteration order (name and handle on success). -/
def ALSAMIDIManager.enumerateOutputs (probes : List (Option (String × Nat))) : List MIDIDevice :=
  probes.foldl
    (fun acc o =>
      match o with
      | some nh => acc ++ [{ index := acc.length, name := nh.1, isInput := false,
                             handle := some nh.2 }]
      | none => acc)
    []

/-- OpenUmpOutput (Windows build): range-checks the index against the catalog,
then opens a native handle via midiOutOpen and stores it in the catalog entry,
overwriting whatever handle was there.  `openResult` models midiOutOpen's
outcome (`some h` = MMSYSERR_NOERROR with handle `h`).  Returns the updated
catalog together with the napi result ({deviceIndex} object or thrown error);
on every error path the catalog is returned unchanged. -/
def OpenUmpOutput (openResult : Option Nat) (outputs : List MIDIDevice)
    (deviceIndex : Nat) : List MIDIDevice × Except NapiError Nat :=
  if h : deviceIndex < outputs.length then
    match openResult with
    | none => (outputs, .error { code := "OPEN_FAILED", msg := "Failed to open MIDI output" })
    | some hdl =>
        (outputs.set deviceIndex { outputs[deviceIndex] with handle := some hdl },
         .ok deviceIndex)
  else (outputs, .error { code := "INVALID_DEVICE", msg := "Device index out of range" })

/-- CloseUmpOutput: if the index is in range and the entry's handle is
non-null, the handle is closed (midiOutClose on Windows) and set to nullptr;
otherwise nothing happens.  The napi function always returns nullptr, never an
error, so the model returns only the updated catalog. -/
def CloseUmpOutput (outputs : List MIDIDevice) (deviceIndex : Nat) : List MIDIDevice :=
  if h : deviceIndex < outputs.length then
    if (outputs[deviceIndex]).handle.isSome then
      outputs.set deviceIndex { outputs[deviceIndex] with handle := none }
    else outputs
  else outputs

/-- What the Windows SendUmp branch handed to the backend: the stored handle,
the byte buffer passed to sendData, the MMRESULT sendData returned (which the
napi function discards), and the short message that reached the wire, if
any. -/
structure WinSendOutcome where
  handleUsed : Option Nat
  dataPassed : List Nat
  mmresult : Nat
  wireMsg : Option Nat
  deriving DecidableEq, Repr

/-- SendUmp (Windows build): range-checks the device index, serializes the
single 32-bit packet into a 4-byte buffer, calls
WindowsMIDIManager::sendData with the stored handle and that buffer, ignores
the returned MMRESULT, and returns nullptr.  The `.ok` payload records what
reached the backend; the catalog is never modified. -/
def SendUmpWindows (outputs : List MIDIDevice) (deviceIndex packet : Nat) :
    Except NapiError WinSendOutcome :=
  if h : deviceIndex < outputs.length then
    let data := umpBytes packet
    let r := WindowsMIDIManager.sendData data
    .ok { handleUsed := (outputs[deviceIndex]).handle, dataPassed := data,
          mmresult := r.1, wireMsg := r.2 }
  else .error { code := "INVALID_DEVICE", msg := "Device not found" }

/-- SendUmp (macOS build): range-checks the index, then calls
MacMIDIManager::sendUMP with the address of the single packet word and
count 1.  The `.ok` payload is the native packet list handed to MIDISend. -/
def SendUmpMac (outputs : List MIDIDevice) (deviceIndex packet : Nat) :
    Except NapiError (List (List Nat)) :=
  if deviceIndex < outputs.length then .ok (MacMIDIManager.sendUMP [packet])
  else .error { code := "INVALID_DEVICE", msg := "Device not found" }

/-- SendUmp (Linux build): range-checks the index, then calls
ALSAMIDIManager::sendUMP with the single packet word and count 1.  The `.ok`
payload is the byte buffer written to the raw-midi handle. -/
def SendUmpLinux (outputs : List MIDIDevice) (deviceIndex packet : Nat) :
    Except NapiError (List Nat) :=
  if deviceIndex < outputs.length then .ok (ALSAMIDIManager.sendUMP [packet])
  else .error { code := "INVALID_DEVICE", msg := "Device not found" }

/-- SendSysEx: in the source this napi entry point is a TODO stub; it ignores
its arguments, performs no backend call and returns nullptr without raising
any error. -/
def SendSysEx (_payload : List Nat) : Except NapiError Unit :=
  .ok ()

/-- Compile-time platform selection (#ifdef __APPLE__ / _WIN32 / __linux__). -/
inductive Platform where
  | apple
  | win32
  | linuxOS
  | unknown
  deriving DecidableEq, Repr

/-- The platform string chosen by the preprocessor chain in GetCapabilities. -/
def platformStr : Platform → String
  | .apple => "macOS"
  | .win32 => "Windows"
  | .linuxOS => "Linux"
  | .unknown => "Unknown"

/-- The capability descriptor object built by GetCapabilities. -/
structure Capabilities where
  platform : String
  midi2Support : Bool
  umpSupport : Bool
  nativeOSSupport : Bool
  maxPayload : Nat
  deriving DecidableEq, Repr

/-- GetCapabilities: builds a descriptor whose every field is a constant of
the compile-time platform; no global state is read or written, so the call is
a pure function of the platform and returns the same value on every call. -/
def GetCapabilities (p : Platform) : Capabilities :=
  { platform := platformStr p, midi2Support := true, umpSupport := true,
    nativeOSSupport := true, maxPayload := 65536 }

/-- Modelled from the spec: the UMP group-size table of the Packet Codec's
`wordCount` (absent from the source, whose SendSysEx and OnUmpInput are TODO
stubs), indexed by the message-type nibble, the top 4 bits of the first word:
0x0 Utility, 0x1 System, 0x2 MIDI1 channel voice give 1 word; 0x3 Data64, 0x4
MIDI2 channel voice give 2 words; 0x5 Data128, 0xD Flex, 0xF UMP Stream give
4 words; every other (reserved) nibble fails MalformedPacket.  First words are
32-bit, so the nibble is `(firstWord >> 28) & 0xF`. -/
def wordCountOfNibble (mt : Nat) : Except MidiErr Nat :=
  match mt with
  | 0x0 => .ok 1
  | 0x1 => .ok 1
  | 0x2 => .ok 1
  | 0x3 => .ok 2
  | 0x4 => .ok 2
  | 0x5 => .ok 4
  | 0xD => .ok 4
  | 0xF => .ok 4
  | _ => .error .MalformedPacket

/-- Modelled from the spec: `wordCount(firstWord)` looks up the group-size
table at the message-type nibble of its first word. -/
def wordCount (firstWord : Nat) : Except MidiErr Nat :=
  wordCountOfNibble ((firstWord >>> 28) % 16)

/-- Maximum SysEx payload advertised by the capability descriptor. -/
def maxPayload : Nat := 65536

/-- Data bytes carried by one SysEx8 (Data128) UMP packet: 16 bytes minus
status/stream-id overhead. -/
def sysExChunkSize : Nat := 13

/-- Status tag of a chunked SysEx packet: a payload fitting one packet is
complete-in-one, otherwise the first chunk is start, middle chunks are cont,
and the final chunk is last. -/
inductive SysExTag where
  | complete
  | start
  | cont
  | last
  deriving DecidableEq, Repr

/-- Modelled from the spec: one SysEx UMP packet of a chunked stream, carrying
its status tag, the stream identifier shared by the whole stream, and its data
bytes (at most `sysExChunkSize`). -/
structure SysExPacket where
  tag : SysExTag
  streamId : Nat
  bytes : List Nat
  deriving DecidableEq, Repr

/-- Modelled from the spec: the chunking loop behind `chunkSysEx`.  Splits the
remaining payload into chunks of at most `sysExChunkSize` bytes; `first` says
whether the packet being produced is the first of the stream, which selects
complete/start over last/cont tags. -/
def chunkSysExAux (streamId : Nat) (first : Bool) (payload : List Nat) : List SysExPacket :=
  if h : payload.length ≤ sysExChunkSize then
    [{ tag := if first then SysExTag.complete else SysExTag.last,
       streamId := streamId, bytes := payload }]
  else
    { tag := if first then SysExTag.start else SysExTag.cont,
      streamId := streamId, bytes := payload.take sysExChunkSize } ::
      chunkSysExAux streamId false (payload.drop sysExChunkSize)
termination_by payload.length
decreasing_by
  simp only [List.length_drop, sysExChunkSize] at *
  omega

/-- Modelled from the spec: `chunkSysEx(payload, streamId)`, absent from the
source (SendSysEx is a TODO stub).  Payloads longer than the 65536-byte cap
fail PayloadTooLarge before any packet is produced; otherwise the payload is
split into tagged SysEx packets sharing `streamId`. -/
def chunkSysEx (payload : List Nat) (streamId : Nat) : Except MidiErr (List SysExPacket) :=
  if payload.length > maxPayload then .error .PayloadTooLarge
  else .ok (chunkSysExAux streamId true payload)

/-- Modelled from the spec: the reassembly scan behind `reassembleSysEx`.  The
state is `none` before a stream has started and `some (sid, acc)` while stream
`sid` is in progress with `acc` the bytes collected so far.  A packet whose
stream id or position does not match the expected next fragment fails
StreamOutOfOrder; running out of packets before a terminating packet fails
IncompleteStream. -/
def reassembleAux : Option (Nat × List Nat) → List SysExPacket → Except MidiErr (List Nat)
  | _, [] => .error .IncompleteStream
  | none, p :: rest =>
      match p.tag with
      | .complete => if rest = [] then .ok p.bytes else .error .StreamOutOfOrder
      | .start => reassembleAux (some (p.streamId, p.bytes)) rest
      | _ => .error .StreamOutOfOrder
  | some (sid, acc), p :: rest =>
      if p.streamId = sid then
        match p.tag with
        | .cont => reassembleAux (some (sid, acc ++ p.bytes)) rest
        | .last => if rest = [] then .ok (acc ++ p.bytes) else .error .StreamOutOfOrder
        | _ => .error .StreamOutOfOrder
      else .error .StreamOutOfOrder

/-- Modelled from the spec: `reassembleSysEx`, the inverse of chunking. -/
def reassembleSysEx (packets : List SysExPacket) : Except MidiErr (List Nat) :=
  reassembleAux none packets

/-! Helper lemmas for the SysEx round trip. -/

/-- Reassembling a non-first chunk sequence of stream `sid` from state
`some (sid, acc)` yields the collected bytes followed by the remaining
payload. -/
theorem reassembleAux_chunkSysExAux_cont (sid : Nat) :
    ∀ n payload, List.length payload ≤ n → ∀ acc : List Nat,
      reassembleAux (some (sid, acc)) (chunkSysExAux sid false payload)
        = .ok (acc ++ payload) := by
  intro n
  induction n with
  | zero =>
      intro payload hle acc
      have hp : payload = [] := List.length_eq_zero.mp (Nat.le_zero.mp hle)
      subst hp
      rw [chunkSysExAux]
      simp [reassembleAux]
  | succ n ih =>
      intro payload hle acc
      rw [chunkSysExAux]
      by_cases hc : payload.length ≤ sysExChunkSize
      · rw [dif_pos hc]
        simp [reassembleAux]
      · rw [dif_neg hc]
        simp only [reassembleAux]
        rw [ih (payload.drop sysExChunkSize)
              (by simp only [List.length_drop, sysExChunkSize] at *; omega)
              (acc ++ payload.take sysExChunkSize)]
        simp [List.append_assoc, List.take_append_drop]

/-- Reassembling the chunk sequence of a whole payload recovers the
payload. -/
theorem reassembleSysEx_chunkSysExAux (sid : Nat) (payload : List Nat) :
    reassembleSysEx (chunkSysExAux sid true payload) = .ok payload := by
  rw [reassembleSysEx, chunkSysExAux]
  by_cases hc : payload.length ≤ sysExChunkSize
  · rw [dif_pos hc]
    simp [reassembleAux]
  · rw [dif_neg hc]
    simp only [reassembleAux, if_true]
    rw [reassembleAux_chunkSysExAux_cont sid (payload.drop sysExChunkSize).length
          (payload.drop sysExChunkSize) (Nat.le_refl _) (payload.take sysExChunkSize)]
    rw [List.take_append_drop]

/-! Claim theorems. -/

/-- C2: for every payload of length 0..65536 and every stream id, reassembling
the chunked payload returns exactly the original payload, and for every
payload longer than 65536 bytes chunkSysEx fails with PayloadTooLarge before
producing any packet. -/
theorem sysex_chunk_reassemble_roundtrip (payload : List Nat) (streamId : Nat) :
    (payload.length ≤ 65536 →
      (chunkSysEx payload streamId).bind reassembleSysEx = .ok payload) ∧
    (65536 < payload.length →
      chunkSysEx payload streamId = .error .PayloadTooLarge) := by
  constructor
  · intro hle
    rw [chunkSysEx, if_neg (by simp only [maxPayload]; omega)]
    simp only [Except.bind]
    exact reassembleSysEx_chunkSysExAux streamId payload
  · intro hgt
    rw [chunkSysEx, if_pos (by simp only [maxPayload]; omega)]

/-- Witness for C2: a 20-byte payload round-trips, and a 65537-byte payload is
rejected with PayloadTooLarge. -/
theorem sysex_chunk_reassemble_roundtrip_witness :
    ((List.replicate 20 7).length ≤ 65536 ∧
      (chunkSysEx (List.replicate 20 7) 3).bind reassembleSysEx
        = .ok (List.replicate 20 7)) ∧
    (65536 < (List.replicate 65537 0).length ∧
      chunkSysEx (List.replicate 65537 0) 1 = .error .PayloadTooLarge) :=
  ⟨⟨by simp only [List.length_replicate]; omega,
    (sysex_chunk_reassemble_roundtrip (List.replicate 20 7) 3).1
      (by simp only [List.length_replicate]; omega)⟩,
   ⟨by simp only [List.length_replicate]; omega,
    (sysex_chunk_reassemble_roundtrip (List.replicate 65537 0) 1).2
      (by simp only [List.length_replicate]; omega)⟩⟩

/-- C7: getCapabilities returns, for every compile-time platform, a descriptor
whose platform string is one of Windows, macOS, Linux, Unknown, whose
midi2Support and umpSupport fields are booleans (true), and whose maxPayload
is 65536; being a pure function of the platform, it returns the same value on
every call and mutates nothing. -/
theorem getCapabilities_descriptor (p : Platform) :
    (GetCapabilities p).platform ∈ (["Windows", "macOS", "Linux", "Unknown"] : List String) ∧
    (GetCapabilities p).midi2Support = true ∧
    (GetCapabilities p).umpSupport = true ∧
    (GetCapabilities p).maxPayload = 65536 := by
  cases p <;> simp [GetCapabilities, platformStr]

/-- C8: wordCount is a function of the message-type nibble alone; on each
recognized nibble it returns the UMP group-size table value in {1,2,4}, and on
every reserved nibble it fails MalformedPacket; consequently every result is
ok 1, ok 2, ok 4 or MalformedPacket. -/
theorem wordCount_message_type_table (w : Nat) :
    (∀ w2, (w >>> 28) % 16 = (w2 >>> 28) % 16 → wordCount w = wordCount w2) ∧
    (∀ n : Fin 16, wordCount ((n : Nat) <<< 28) =
      if (n : Nat) ≤ 2 then .ok 1
      else if (n : Nat) ≤ 4 then .ok 2
      else if (n : Nat) = 5 ∨ (n : Nat) = 13 ∨ (n : Nat) = 15 then .ok 4
      else .error .MalformedPacket) ∧
    (wordCount w = .ok 1 ∨ wordCount w = .ok 2 ∨ wordCount w = .ok 4 ∨
      wordCount w = .error .MalformedPacket) := by
  refine ⟨?_, ?_, ?_⟩
  · intro w2 hnib
    unfold wordCount
    rw [hnib]
  · intro n
    fin_cases n <;> rfl
  · have hx : (w >>> 28) % 16 < 16 := Nat.mod_lt _ (by norm_num)
    unfold wordCount
    generalize hg : (w >>> 28) % 16 = x at hx ⊢
    interval_cases x <;>
      first
        | exact Or.inl rfl
        | exact Or.inr (Or.inl rfl)
        | exact Or.inr (Or.inr (Or.inl rfl))
        | exact Or.inr (Or.inr (Or.inr rfl))

/-- Witness for C8: two words sharing the MIDI1-channel-voice nibble 0x2 get
the same word count. -/
theorem wordCount_message_type_table_witness :
    ((0x20903C40 >>> 28) % 16 = (0x2FFFFFFF >>> 28) % 16) ∧
    wordCount 0x20903C40 = wordCount 0x2FFFFFFF :=
  ⟨by decide, (wordCount_message_type_table 0x20903C40).1 0x2FFFFFFF (by decide)⟩

/-- CloseUmpOutput leaves the catalog untouched whenever the indexed entry's
handle is already null (or the index is out of range). -/
theorem closeUmpOutput_noop_of_handle_none (l : List MIDIDevice) (i : Nat)
    (hnone : ∀ hlt : i < l.length, (l[i]).handle = none) :
    CloseUmpOutput l i = l := by
  rw [CloseUmpOutput]
  split
  · rename_i hlt
    rw [hnone hlt]
    simp
  · rfl

/-- C5: close is idempotent: after one close the catalog entry (when it
exists) holds no native handle, i.e. the session is Closed with the handle
released, and a second close is a no-op returning the catalog unchanged; the
function has no error outcome at all, so every close completes without
error. -/
theorem closeUmpOutput_idempotent (outputs : List MIDIDevice) (i : Nat) :
    ((CloseUmpOutput outputs i)[i]?).map MIDIDevice.handle
      = (outputs[i]?).map (fun _ => (none : Option Nat)) ∧
    CloseUmpOutput (CloseUmpOutput outputs i) i = CloseUmpOutput outputs i := by
  by_cases h : i < outputs.length
  · by_cases hs : (outputs[i]).handle.isSome
    · have e : CloseUmpOutput outputs i
          = outputs.set i { outputs[i] with handle := none } := by
        rw [CloseUmpOutput, dif_pos h, if_pos hs]
      refine ⟨?_, ?_⟩
      · rw [e, List.getElem?_set_eq_of_lt _ h, List.getElem?_eq_getElem h]
        rfl
      · rw [e]
        exact closeUmpOutput_noop_of_handle_none _ i
          (fun hlt => by rw [List.getElem_set_self (by simpa using h)])
    · have hnone : (outputs[i]).handle = none := by
        cases hh : (outputs[i]).handle
        · rfl
        · rw [hh] at hs
          simp at hs
      have e : CloseUmpOutput outputs i = outputs := by
        rw [CloseUmpOutput, dif_pos h, if_neg hs]
      refine ⟨?_, ?_⟩
      · rw [e, List.getElem?_eq_getElem h]
        simp [hnone]
      · rw [e, e]
  · have e : CloseUmpOutput outputs i = outputs := by
      rw [CloseUmpOutput, dif_neg h]
    refine ⟨?_, ?_⟩
    · rw [e, List.getElem?_eq_none (Nat.le_of_not_lt h)]
      rfl
    · rw [e, e]

/-- C9: an index that is out of range for the current catalog makes both open
and send fail with the device-not-found napi error (code INVALID_DEVICE, the
source's spelling of DeviceNotFound); open returns the catalog unchanged, so
no session is created and no state changes, and send reaches no backend on any
platform. -/
theorem out_of_range_fails_device_not_found (openResult : Option Nat)
    (outputs : List MIDIDevice) (deviceIndex packet : Nat)
    (h : outputs.length ≤ deviceIndex) :
    OpenUmpOutput openResult outputs deviceIndex
      = (outputs, .error { code := "INVALID_DEVICE", msg := "Device index out of range" }) ∧
    SendUmpWindows outputs deviceIndex packet
      = .error { code := "INVALID_DEVICE", msg := "Device not found" } ∧
    SendUmpMac outputs deviceIndex packet
      = .error { code := "INVALID_DEVICE", msg := "Device not found" } ∧
    SendUmpLinux outputs deviceIndex packet
      = .error { code := "INVALID_DEVICE", msg := "Device not found" } := by
  have h' : ¬ deviceIndex < outputs.length := Nat.not_lt.mpr h
  refine ⟨?_, ?_, ?_, ?_⟩
  · rw [OpenUmpOutput, dif_neg h']
  · rw [SendUmpWindows, dif_neg h']
  · rw [SendUmpMac, if_neg h']
  · rw [SendUmpLinux, if_neg h']

/-- Witness for C9: opening index 0 of an empty catalog fails with
INVALID_DEVICE and leaves the catalog empty. -/
theorem out_of_range_fails_device_not_found_witness :
    ([] : List MIDIDevice).length ≤ 0 ∧
    OpenUmpOutput (some 7) [] 0
      = ([], .error { code := "INVALID_DEVICE", msg := "Device index out of range" }) :=
  ⟨Nat.le_refl 0, (out_of_range_fails_device_not_found (some 7) [] 0 0 (Nat.le_refl 0)).1⟩

/-- C10: for every in-range index, every platform branch of SendUmp hands its
backend exactly the one 32-bit word supplied: the macOS branch passes a packet
list of one 4-byte native packet, the Linux branch writes one 4-byte buffer,
and the Windows branch builds the 4-byte buffer from that word, so no
multi-word UMP packet can ever be transmitted through the exposed interface,
whatever the message-type nibble of the word. -/
theorem sendUmp_single_word (outputs : List MIDIDevice) (deviceIndex packet : Nat)
    (h : deviceIndex < outputs.length) :
    SendUmpMac outputs deviceIndex packet = .ok [umpBytes packet] ∧
    SendUmpLinux outputs deviceIndex packet = .ok (umpBytes packet) ∧
    (∃ o, SendUmpWindows outputs deviceIndex packet = .ok o ∧
      o.dataPassed = umpBytes packet) ∧
    [umpBytes packet].length = 1 ∧ (umpBytes packet).length = 4 := by
  refine ⟨?_, ?_, ?_, rfl, rfl⟩
  · rw [SendUmpMac, if_pos h]
    rfl
  · rw [SendUmpLinux, if_pos h]
    simp [ALSAMIDIManager.sendUMP]
  · refine ⟨{ handleUsed := (outputs.get ⟨deviceIndex, h⟩).handle,
              dataPassed := umpBytes packet,
              mmresult := (WindowsMIDIManager.sendData (umpBytes packet)).1,
              wireMsg := (WindowsMIDIManager.sendData (umpBytes packet)).2 }, ?_, rfl⟩
    rw [SendUmpWindows, dif_pos h]
    rfl

/-- Witness for C10: sending the note-on word 0x20903C40 to index 0 of a
one-entry catalog hands CoreMIDI exactly one 4-byte packet. -/
theorem sendUmp_single_word_witness :
    (0 < ([{ index := 0, name := "d", isInput := false, handle := some 1 }] :
        List MIDIDevice).length) ∧
    SendUmpMac [{ index := 0, name := "d", isInput := false, handle := some 1 }] 0 0x20903C40
      = .ok [umpBytes 0x20903C40] :=
  ⟨Nat.zero_lt_one,
   (sendUmp_single_word [{ index := 0, name := "d", isInput := false, handle := some 1 }]
     0 0x20903C40 Nat.zero_lt_one).1⟩

/-- C1 (failing evaluation): on the Windows branch, every SendUmp call passes
sendData a 4-byte buffer, so the backend reports MMSYSERR_ERROR and nothing
reaches the wire; yet SendUmp discards that MMRESULT and reports no error to
the caller, and SendSysEx is a stub that accepts a 256-byte payload while
performing no work and raising no error.  The multi-word failure is therefore
silently dropped instead of being surfaced as a typed UnsupportedOnBackend
error. -/
theorem sendUmpWindows_swallows_backend_error :
    WindowsMIDIManager.sendData (umpBytes 0x20903C40) = (MMSYSERR_ERROR, none) ∧
    SendUmpWindows [{ index := 0, name := "Device A", isInput := false, handle := some 7 }]
        0 0x20903C40
      = .ok { handleUsed := some 7, dataPassed := umpBytes 0x20903C40,
              mmresult := MMSYSERR_ERROR, wireMsg := none } ∧
    SendSysEx (List.replicate 256 0) = .ok () :=
  ⟨rfl, rfl, rfl⟩

/-- C3 (failing evaluation): closing the only session nulls its handle, yet a
subsequent SendUmp still passes the range check, reaches the backend with the
null handle, and throws no napi error at all — in particular no SessionNotOpen
error. -/
theorem sendUmp_after_close_not_rejected :
    CloseUmpOutput [{ index := 0, name := "Device A", isInput := false, handle := some 7 }] 0
      = [{ index := 0, name := "Device A", isInput := false, handle := none }] ∧
    SendUmpWindows
        (CloseUmpOutput [{ index := 0, name := "Device A", isInput := false,
                           handle := some 7 }] 0) 0 0x20903C40
      = .ok { handleUsed := none, dataPassed := umpBytes 0x20903C40,
              mmresult := MMSYSERR_ERROR, wireMsg := none } :=
  ⟨rfl, rfl⟩

/-- C4 (failing evaluation): opening index 0 stores handle 7; a second open of
the same index succeeds again instead of failing AlreadyOpen, and silently
replaces the stored handle with the newly opened handle 8. -/
theorem openUmpOutput_second_open_not_rejected :
    OpenUmpOutput (some 7) [{ index := 0, name := "Device A", isInput := false,
                              handle := none }] 0
      = ([{ index := 0, name := "Device A", isInput := false, handle := some 7 }], .ok 0) ∧
    OpenUmpOutput (some 8) [{ index := 0, name := "Device A", isInput := false,
                              handle := some 7 }] 0
      = ([{ index := 0, name := "Device A", isInput := false, handle := some 8 }], .ok 0) :=
  ⟨rfl, rfl⟩

/-- C6 (failing evaluation): on Windows, with two native devices of which the
first fails its capability query, the refreshed catalog's entry at position 0
carries index 1, not 0 — indices follow the native loop counter and are not
dense when an entry is skipped.  The ALSA enumeration, by contrast, indexes by
catalog size and stays dense on the same scenario. -/
theorem windowsEnumerateOutputs_index_gap :
    (WindowsMIDIManager.enumerateOutputs [none, some "B"]).map MIDIDevice.index = [1] ∧
    (ALSAMIDIManager.enumerateOutputs [none, some ("B", 5)]).map MIDIDevice.index = [0] :=
  ⟨rfl, rfl⟩
